import Mathlib

set_option maxHeartbeats 1000000

/- Shallow embedding of the notification service core:
   app/services/notification_processor.py, app/services/email_provider.py,
   app/api/routes/notifications.py, app/models/notification.py,
   app/core/config.py.
   Timestamps are modelled as Nat (each call site receives the current time
   as a parameter), database sessions as explicit lists of records, and the
   external SMTP transport / email sends as oracles that may return a value
   or raise (Except). -/

/-- Flat JSON-ish values as carried in event payloads and record data. -/
inductive Json where
  | null : Json
  | str (s : String) : Json
  | num (n : Int) : Json
  | bool (b : Bool) : Json
deriving DecidableEq

/-- Python truthiness of a JSON value (None, empty string and 0 are falsy). -/
def Json.truthy : Json → Bool
  | .null => false
  | .str s => s != ""
  | .num n => n != 0
  | .bool b => b

/-- Python str() rendering of a JSON value, as used by f-strings. -/
def Json.pyStr : Json → String
  | .null => "None"
  | .str s => s
  | .num n => toString n
  | .bool b => if b then "True" else "False"

/-- Python dict.get(k): missing key yields None (Json.null). -/
def pyGet (d : List (String × Json)) (k : String) : Json :=
  match d.find? (fun kv => kv.1 == k) with
  | some kv => kv.2
  | none => Json.null

/-- Python dict.get(k, default): the default applies only when the key is absent. -/
def pyGetD (d : List (String × Json)) (k : String) (dflt : Json) : Json :=
  match d.find? (fun kv => kv.1 == k) with
  | some kv => kv.2
  | none => dflt

/-- Whether a key is present in the payload dictionary. -/
def hasKey (d : List (String × Json)) (k : String) : Bool :=
  (d.find? (fun kv => kv.1 == k)).isSome

/-- Python truthiness of an optional string (None and the empty string are falsy). -/
def truthyOptStr : Option String → Bool
  | none => false
  | some s => s != ""

/-- Python truthiness of an optional list (None and the empty list are falsy). -/
def truthyOptList : Option (List String) → Bool
  | none => false
  | some l => !l.isEmpty

/-- Database model Notification (app/models/notification.py). -/
structure Notification where
  id : Nat
  user_id : Option String
  type : String
  channel : String
  subject : Option String
  content : String
  status : String
  error_message : Option String
  data : Option (List (String × Json))
  created_at : Nat
  updated_at : Nat
  sent_at : Option Nat
  read_at : Option Nat
deriving DecidableEq

/-- Database model NotificationPreference (app/models/notification.py). -/
structure NotificationPreference where
  id : Nat
  user_id : String
  channel : String
  enabled : Bool
  email : Option String
  phone : Option String
  webhook_url : Option String
  settings : Option (List (String × Json))
  created_at : Nat
  updated_at : Nat
deriving DecidableEq

/-- The persistence store: notification and preference tables. -/
structure Db where
  notifications : List Notification
  preferences : List NotificationPreference
deriving DecidableEq

/-- Configuration surface (app/core/config.py), restricted to the fields the
    modelled components read. -/
structure Settings where
  ADMIN_EMAIL : Option String
  SMTP_HOST : String
  SMTP_PORT : Nat
  SMTP_USER : Option String
  SMTP_PASSWORD : Option String
  EMAIL_FROM : Option String
  EMAIL_FROM_NAME : String
  NOTIFICATION_BATCH_SIZE : Nat
  NOTIFICATION_PROCESSING_INTERVAL : Nat
deriving DecidableEq

/-- EmailProvider configuration captured at construction (app/services/email_provider.py). -/
structure EmailProvider where
  host : String
  port : Nat
  username : Option String
  password : Option String
  from_email : Option String
  from_name : String
deriving DecidableEq

/-- EmailProvider init snapshot from settings. -/
def emailProviderOf (s : Settings) : EmailProvider :=
  { host := s.SMTP_HOST, port := s.SMTP_PORT, username := s.SMTP_USER,
    password := s.SMTP_PASSWORD, from_email := s.EMAIL_FROM,
    from_name := s.EMAIL_FROM_NAME }

/-- The MIME message built by send_email: headers plus (mime-subtype, content) parts. -/
structure EmailMessage where
  from_header : String
  to_header : String
  subject : String
  cc_header : Option String
  parts : List (String × String)
deriving DecidableEq

/-- Plain-text fallback derived from HTML by the small tag-stripping heuristic. -/
def htmlToText (html : String) : String :=
  ((((html.replace "<br>" "\n").replace "<br/>" "\n").replace "<p>" "\n").replace "</p>" "\n")

/-- EmailProvider.send_email. The transport (aiosmtplib.send) is an oracle that
    either delivers or raises; returns the boolean result paired with the list
    of transport invocations actually made. -/
def send_email (p : EmailProvider)
    (transport : EmailMessage → List String → Except String Unit)
    (to_email subject html_content : String) (text_content : Option String)
    (cc bcc : Option (List String)) : Bool × List (EmailMessage × List String) :=
  if !truthyOptStr p.username || !truthyOptStr p.password || !truthyOptStr p.from_email then
    (false, [])
  else
    let plain : String :=
      match text_content with
      | some t => if t != "" then t else htmlToText html_content
      | none => htmlToText html_content
    let message : EmailMessage :=
      { from_header := p.from_name ++ " <" ++ p.from_email.getD "" ++ ">",
        to_header := to_email,
        subject := subject,
        cc_header := if truthyOptList cc then some (String.intercalate ", " (cc.getD [])) else none,
        parts := [("plain", plain), ("html", html_content)] }
    let recipients : List String :=
      [to_email] ++ (if truthyOptList cc then cc.getD [] else [])
        ++ (if truthyOptList bcc then bcc.getD [] else [])
    match transport message recipients with
    | .ok _ => (true, [(message, recipients)])
    | .error _ => (false, [(message, recipients)])

/-- C9: sendEmail returns false and makes no transport attempt whenever the
    transport username, password, or sender address is unconfigured, for every
    recipient, subject, body, optional text body, cc and bcc, and for every
    transport behaviour (including a raising transport); totality of the
    embedding is the no-raise guarantee. -/
theorem send_email_unconfigured_returns_false
    (p : EmailProvider) (transport : EmailMessage → List String → Except String Unit)
    (to_email subject html_content : String) (text_content : Option String)
    (cc bcc : Option (List String))
    (h : truthyOptStr p.username = false ∨ truthyOptStr p.password = false ∨
         truthyOptStr p.from_email = false) :
    send_email p transport to_email subject html_content text_content cc bcc = (false, []) := by
  unfold send_email
  rcases h with h | h | h <;> simp [h]

/-- Witness for C9 at a concrete unconfigured provider and a raising transport. -/
theorem send_email_unconfigured_returns_false_witness :
    send_email
      { host := "h", port := 587, username := none, password := some "pw",
        from_email := some "from@x", from_name := "N" }
      (fun _ _ => Except.error "boom") "to@x" "s" "<p>b</p>" none none none = (false, []) :=
  send_email_unconfigured_returns_false _ _ _ _ _ _ _ _ (Or.inl rfl)

/-- A call made to the email provider: the arguments of send_email as invoked
    by the notification processor. -/
structure EmailAttempt where
  to_email : String
  subject : Option String
  html_content : String
deriving DecidableEq

/-- First preference row matching (user_id, channel), as returned by the
    select in send_notification followed by scalars().first(). -/
def findPref (prefs : List NotificationPreference) (uid channel : String) :
    Option NotificationPreference :=
  prefs.find? (fun p => p.user_id == uid && p.channel == channel)

/-- Delivery address resolved by the email branch of send_notification:
    requires a truthy user_id, a (user, email) preference row, and a truthy
    email field on it. -/
def resolveEmail (prefs : List NotificationPreference) (n : Notification) : Option String :=
  match n.user_id with
  | none => none
  | some uid =>
    if uid = "" then none
    else
      match findPref prefs uid "email" with
      | none => none
      | some p =>
        match p.email with
        | none => none
        | some e => if e = "" then none else some e

/-- The channel branch of send_notification: yields the success boolean (or an
    exception raised inside the branch, via the emailSend oracle) together with
    the email-send attempts made. -/
def sendBranch (prefs : List NotificationPreference)
    (emailSend : String → Option String → String → Except String Bool)
    (n : Notification) : Except String Bool × List EmailAttempt :=
  if n.channel = "email" then
    match resolveEmail prefs n with
    | some addr => (emailSend addr n.subject n.content, [⟨addr, n.subject, n.content⟩])
    | none => (Except.ok false, [])
  else if n.channel = "database" then (Except.ok true, [])
  else (Except.ok false, [])

/-- The two states of the record committed by send_notification (the
    mid-flight processing commit and the final commit), plus the email
    attempts made. -/
structure SendResult where
  mid : Notification
  fin : Notification
  attempts : List EmailAttempt
deriving DecidableEq

/-- NotificationProcessor.send_notification. The record is first committed
    with status processing, then the channel branch runs; success yields
    status sent with sent_at stamped, non-success yields status failed with
    the fixed message, and an exception raised in the branch is caught and
    yields status failed with the exception text. -/
def send_notification (prefs : List NotificationPreference)
    (emailSend : String → Option String → String → Except String Bool)
    (now : Nat) (n : Notification) : SendResult :=
  let n1 := { n with status := "processing", updated_at := now }
  let branch := sendBranch prefs emailSend n1
  match branch.1 with
  | .ok true =>
      ⟨n1, { n1 with status := "sent", sent_at := some now, updated_at := now }, branch.2⟩
  | .ok false =>
      ⟨n1, { n1 with status := "failed", error_message := some "Failed to send notification", updated_at := now }, branch.2⟩
  | .error e =>
      ⟨n1, { n1 with status := "failed", error_message := some e, updated_at := now }, branch.2⟩

/-- C1: send_notification is total over every record, preference table and
    branch outcome (including a branch that raises): it always returns with a
    final commit stamped updated_at=now and status sent or failed; a record
    whose channel is outside email and database ends with status failed; a
    raising branch is caught and recorded as failed with the exception text. -/
theorem send_notification_never_raises (prefs : List NotificationPreference)
    (emailSend : String → Option String → String → Except String Bool)
    (now : Nat) (n : Notification) :
    ((send_notification prefs emailSend now n).fin.status = "sent" ∨
      (send_notification prefs emailSend now n).fin.status = "failed") ∧
    (send_notification prefs emailSend now n).fin.updated_at = now ∧
    (n.channel ≠ "email" → n.channel ≠ "database" →
      (send_notification prefs emailSend now n).fin.status = "failed" ∧
      (send_notification prefs emailSend now n).fin.error_message =
        some "Failed to send notification") := by
  refine ⟨?_, ?_, ?_⟩
  · unfold send_notification
    rcases h : (sendBranch prefs emailSend { n with status := "processing", updated_at := now }).1
      with _ | b
    · simp [h]
    · cases b <;> simp [h]
  · unfold send_notification
    rcases h : (sendBranch prefs emailSend { n with status := "processing", updated_at := now }).1
      with _ | b
    · simp [h]
    · cases b <;> simp [h]
  · intro h1 h2
    unfold send_notification sendBranch
    simp [h1, h2]

/-- Witness for C1 at a record with the unhandled channel sms and a raising
    branch oracle. -/
theorem send_notification_never_raises_witness :
    ((send_notification [] (fun _ _ _ => Except.error "boom") 5
        { id := 1, user_id := none, type := "t", channel := "sms", subject := none,
          content := "c", status := "pending", error_message := none, data := none,
          created_at := 0, updated_at := 0, sent_at := none, read_at := none }).fin.status = "sent" ∨
      (send_notification [] (fun _ _ _ => Except.error "boom") 5
        { id := 1, user_id := none, type := "t", channel := "sms", subject := none,
          content := "c", status := "pending", error_message := none, data := none,
          created_at := 0, updated_at := 0, sent_at := none, read_at := none }).fin.status = "failed") ∧
    (send_notification [] (fun _ _ _ => Except.error "boom") 5
        { id := 1, user_id := none, type := "t", channel := "sms", subject := none,
          content := "c", status := "pending", error_message := none, data := none,
          created_at := 0, updated_at := 0, sent_at := none, read_at := none }).fin.updated_at = 5 ∧
    ((send_notification [] (fun _ _ _ => Except.error "boom") 5
        { id := 1, user_id := none, type := "t", channel := "sms", subject := none,
          content := "c", status := "pending", error_message := none, data := none,
          created_at := 0, updated_at := 0, sent_at := none, read_at := none }).fin.status = "failed" ∧
      (send_notification [] (fun _ _ _ => Except.error "boom") 5
        { id := 1, user_id := none, type := "t", channel := "sms", subject := none,
          content := "c", status := "pending", error_message := none, data := none,
          created_at := 0, updated_at := 0, sent_at := none, read_at := none }).fin.error_message =
        some "Failed to send notification") := by
  have h := send_notification_never_raises [] (fun _ _ _ => Except.error "boom") 5
    { id := 1, user_id := none, type := "t", channel := "sms", subject := none,
      content := "c", status := "pending", error_message := none, data := none,
      created_at := 0, updated_at := 0, sent_at := none, read_at := none }
  exact ⟨h.1, h.2.1, h.2.2 (by decide) (by decide)⟩

/-- Resolution fails when the record has no usable user reference or every
    matching email preference row lacks a truthy address. -/
theorem resolveEmail_none (prefs : List NotificationPreference) (n : Notification)
    (h : n.user_id = none ∨ ∀ p ∈ prefs, some p.user_id = n.user_id → p.channel = "email" →
      truthyOptStr p.email = false) :
    resolveEmail prefs n = none := by
  rcases hu : n.user_id with _ | uid
  · simp [resolveEmail, hu]
  · rcases h with h | h
    · rw [hu] at h; exact absurd h (by simp)
    · by_cases he : uid = ""
      · simp [resolveEmail, hu, he]
      · rcases hf : findPref prefs uid "email" with _ | p
        · simp [resolveEmail, hu, he, hf]
        · have hmem := List.mem_of_find?_eq_some hf
          have hp := List.find?_some hf
          simp only [Bool.and_eq_true, beq_iff_eq] at hp
          have hemail := h p hmem (by rw [hu, hp.1]) hp.2
          rcases hpe : p.email with _ | e
          · simp [resolveEmail, hu, he, hf, hpe]
          · rw [hpe] at hemail
            simp only [truthyOptStr, bne_eq_false_iff_eq] at hemail
            simp [resolveEmail, hu, he, hf, hpe, hemail]

/-- Email branch with unresolvable address: not-succeeded, no attempt. -/
theorem sendBranch_email_none (prefs : List NotificationPreference)
    (o : String → Option String → String → Except String Bool) (n : Notification)
    (hch : n.channel = "email") (hre : resolveEmail prefs n = none) :
    sendBranch prefs o n = (Except.ok false, []) := by
  unfold sendBranch
  rw [if_pos hch, hre]

/-- Email branch with a resolved address: one attempt via the oracle. -/
theorem sendBranch_email_some (prefs : List NotificationPreference)
    (o : String → Option String → String → Except String Bool) (n : Notification) (addr : String)
    (hch : n.channel = "email") (hre : resolveEmail prefs n = some addr) :
    sendBranch prefs o n = (o addr n.subject n.content, [⟨addr, n.subject, n.content⟩]) := by
  unfold sendBranch
  rw [if_pos hch, hre]

/-- C5: a record with channel email for which no matching (user, email)
    preference with a truthy address exists — including a record with no user
    reference — makes no email-send attempt and ends with status failed and the
    fixed error message; totality of the embedding is the no-throw guarantee. -/
theorem email_missing_preference_fails (prefs : List NotificationPreference)
    (emailSend : String → Option String → String → Except String Bool)
    (now : Nat) (n : Notification)
    (hch : n.channel = "email")
    (h : n.user_id = none ∨ ∀ p ∈ prefs, some p.user_id = n.user_id → p.channel = "email" →
      truthyOptStr p.email = false) :
    (send_notification prefs emailSend now n).attempts = [] ∧
    (send_notification prefs emailSend now n).fin.status = "failed" ∧
    (send_notification prefs emailSend now n).fin.error_message =
      some "Failed to send notification" := by
  have hre : resolveEmail prefs { n with status := "processing", updated_at := now } = none :=
    resolveEmail_none _ _ h
  have hbr : sendBranch prefs emailSend { n with status := "processing", updated_at := now } =
      (Except.ok false, []) :=
    sendBranch_email_none _ _ _ hch hre
  unfold send_notification
  simp [hbr]

/-- Witness for C5 at a record whose only matching preference row has an empty
    address. -/
theorem email_missing_preference_fails_witness :
    (send_notification
      [{ id := 9, user_id := "u", channel := "email", enabled := true, email := some "",
         phone := none, webhook_url := none, settings := none, created_at := 0, updated_at := 0 }]
      (fun _ _ _ => Except.ok true) 7
      { id := 1, user_id := some "u", type := "t", channel := "email", subject := some "s",
        content := "c", status := "pending", error_message := none, data := none,
        created_at := 0, updated_at := 0, sent_at := none, read_at := none }).attempts = [] ∧
    (send_notification
      [{ id := 9, user_id := "u", channel := "email", enabled := true, email := some "",
         phone := none, webhook_url := none, settings := none, created_at := 0, updated_at := 0 }]
      (fun _ _ _ => Except.ok true) 7
      { id := 1, user_id := some "u", type := "t", channel := "email", subject := some "s",
        content := "c", status := "pending", error_message := none, data := none,
        created_at := 0, updated_at := 0, sent_at := none, read_at := none }).fin.status = "failed" ∧
    (send_notification
      [{ id := 9, user_id := "u", channel := "email", enabled := true, email := some "",
         phone := none, webhook_url := none, settings := none, created_at := 0, updated_at := 0 }]
      (fun _ _ _ => Except.ok true) 7
      { id := 1, user_id := some "u", type := "t", channel := "email", subject := some "s",
        content := "c", status := "pending", error_message := none, data := none,
        created_at := 0, updated_at := 0, sent_at := none, read_at := none }).fin.error_message =
      some "Failed to send notification" :=
  email_missing_preference_fails _ _ 7 _ rfl (Or.inr (by decide))

/-- C10: the email branch never consults the enabled flag: with a user
    reference and a matching (user, email) preference carrying a truthy
    address, exactly one email-send attempt is made to that address even when
    the preference has enabled set to false. -/
theorem email_branch_ignores_enabled_flag (prefs : List NotificationPreference)
    (emailSend : String → Option String → String → Except String Bool)
    (now : Nat) (n : Notification) (uid e : String) (p : NotificationPreference)
    (hch : n.channel = "email") (hu : n.user_id = some uid) (hne : uid ≠ "")
    (hf : findPref prefs uid "email" = some p) (hpe : p.email = some e) (hee : e ≠ "")
    (_hdis : p.enabled = false) :
    (send_notification prefs emailSend now n).attempts = [⟨e, n.subject, n.content⟩] := by
  have hre : resolveEmail prefs { n with status := "processing", updated_at := now } = some e := by
    simp [resolveEmail, hu, hne, hf, hpe, hee]
  have hbr := sendBranch_email_some prefs emailSend
    { n with status := "processing", updated_at := now } e hch hre
  dsimp only at hbr
  unfold send_notification
  dsimp only
  rw [hbr]
  rcases emailSend e n.subject n.content with _ | b
  · rfl
  · cases b <;> rfl

/-- Witness for C10 at a disabled preference with a non-empty address. -/
theorem email_branch_ignores_enabled_flag_witness :
    (send_notification
      [{ id := 9, user_id := "u", channel := "email", enabled := false, email := some "a@b",
         phone := none, webhook_url := none, settings := none, created_at := 0, updated_at := 0 }]
      (fun _ _ _ => Except.ok true) 7
      { id := 1, user_id := some "u", type := "t", channel := "email", subject := some "s",
        content := "c", status := "pending", error_message := none, data := none,
        created_at := 0, updated_at := 0, sent_at := none, read_at := none }).attempts =
      [⟨"a@b", some "s", "c"⟩] :=
  email_branch_ignores_enabled_flag _ _ 7 _ "u" "a@b" _ rfl rfl (by decide) rfl rfl
    (by decide) rfl

/-- Insertion into a list kept in created_at ascending order. -/
def insertByCreated (n : Notification) : List Notification → List Notification
  | [] => [n]
  | m :: ms => if n.created_at ≤ m.created_at then n :: m :: ms else m :: insertByCreated n ms

/-- Sorting by created_at ascending, modelling ORDER BY created_at of the
    pending-batch query. -/
def sortByCreated : List Notification → List Notification
  | [] => []
  | n :: ns => insertByCreated n (sortByCreated ns)

/-- The batch query of process_pending_notifications: records with status
    pending, ordered by creation time ascending, limited to batchSize. -/
def sweepSelect (notifs : List Notification) (batchSize : Nat) : List Notification :=
  (sortByCreated (notifs.filter (fun n => n.status == "pending"))).take batchSize

/-- Commit of the processed batch into the table: each record whose id matches
    a processed final state is replaced by it. -/
def applyFinals (finals : List Notification) (r : Notification) : Notification :=
  match finals.find? (fun f => f.id == r.id) with
  | some f => f
  | none => r

/-- One iteration of the sweep in process_pending_notifications: select the
    pending batch, run send_notification over it in order, commit. Returns the
    table after the iteration together with the processed records in
    processing order. -/
def sweepIteration (prefs : List NotificationPreference)
    (o : String → Option String → String → Except String Bool)
    (now batchSize : Nat) (notifs : List Notification) :
    List Notification × List Notification :=
  let finals := (sweepSelect notifs batchSize).map (fun n => (send_notification prefs o now n).fin)
  (notifs.map (applyFinals finals), finals)

/-- Membership through ordered insertion. -/
theorem mem_insertByCreated (n m : Notification) (l : List Notification) :
    m ∈ insertByCreated n l ↔ m = n ∨ m ∈ l := by
  induction l with
  | nil => simp [insertByCreated]
  | cons k ks ih =>
    unfold insertByCreated
    by_cases h : n.created_at ≤ k.created_at
    · simp [h]
    · simp only [if_neg h, List.mem_cons, ih]
      tauto

/-- Membership is preserved by the sort. -/
theorem mem_sortByCreated (m : Notification) (l : List Notification) :
    m ∈ sortByCreated l ↔ m ∈ l := by
  induction l with
  | nil => simp [sortByCreated]
  | cons k ks ih => simp [sortByCreated, mem_insertByCreated, ih]

/-- Ordered insertion preserves the created_at ordering invariant. -/
theorem pairwise_insertByCreated (n : Notification) (l : List Notification)
    (h : l.Pairwise (fun a c => a.created_at ≤ c.created_at)) :
    (insertByCreated n l).Pairwise (fun a c => a.created_at ≤ c.created_at) := by
  induction l with
  | nil => simp [insertByCreated]
  | cons k ks ih =>
    rcases List.pairwise_cons.mp h with ⟨hk, hks⟩
    by_cases hle : n.created_at ≤ k.created_at
    · unfold insertByCreated
      rw [if_pos hle]
      refine List.pairwise_cons.mpr ⟨?_, h⟩
      intro m hm
      rcases List.mem_cons.mp hm with rfl | hm
      · exact hle
      · exact Nat.le_trans hle (hk m hm)
    · unfold insertByCreated
      rw [if_neg hle]
      refine List.pairwise_cons.mpr ⟨?_, ih hks⟩
      intro m hm
      rcases (mem_insertByCreated n m ks).mp hm with rfl | hm
      · exact Nat.le_of_not_le hle
      · exact hk m hm

/-- The sort produces a created_at ascending list. -/
theorem pairwise_sortByCreated (l : List Notification) :
    (sortByCreated l).Pairwise (fun a c => a.created_at ≤ c.created_at) := by
  induction l with
  | nil => simp [sortByCreated]
  | cons k ks ih => exact pairwise_insertByCreated k (sortByCreated ks) ih

/-- A selected record is a pending record of the table. -/
theorem mem_sweepSelect (n : Notification) (notifs : List Notification) (b : Nat)
    (h : n ∈ sweepSelect notifs b) : n ∈ notifs ∧ n.status = "pending" := by
  have h1 := List.mem_of_mem_take h
  have h2 := (mem_sortByCreated n _).mp h1
  have h3 := List.mem_filter.mp h2
  exact ⟨h3.1, by simpa using h3.2⟩

/-- send_notification never changes the record id. -/
theorem send_notification_fin_id (prefs : List NotificationPreference)
    (o : String → Option String → String → Except String Bool)
    (now : Nat) (n : Notification) :
    (send_notification prefs o now n).fin.id = n.id := by
  unfold send_notification
  rcases h : (sendBranch prefs o { n with status := "processing", updated_at := now }).1 with _ | b
  · simp [h]
  · cases b <;> simp [h]

/-- send_notification never changes the creation timestamp. -/
theorem send_notification_fin_created_at (prefs : List NotificationPreference)
    (o : String → Option String → String → Except String Bool)
    (now : Nat) (n : Notification) :
    (send_notification prefs o now n).fin.created_at = n.created_at := by
  unfold send_notification
  rcases h : (sendBranch prefs o { n with status := "processing", updated_at := now }).1 with _ | b
  · simp [h]
  · cases b <;> simp [h]

/-- C2: status transitions move only along pending to processing to sent or
    failed. A sweep iteration leaves every record already sent or failed
    untouched (the pending-only selection guards send_notification, the sole
    mutator), and send_notification on a pending record commits processing
    mid-flight and ends in sent or failed. Record ids are assumed unique,
    as they are primary keys. -/
theorem status_transitions_monotonic (prefs : List NotificationPreference)
    (o : String → Option String → String → Except String Bool)
    (now batchSize : Nat) (notifs : List Notification)
    (hnd : (notifs.map (fun r => r.id)).Nodup) :
    (∀ (i : Nat) (r : Notification), notifs[i]? = some r →
      (r.status = "sent" ∨ r.status = "failed") →
      (sweepIteration prefs o now batchSize notifs).1[i]? = some r) ∧
    (∀ n : Notification, n.status = "pending" →
      (send_notification prefs o now n).mid.status = "processing" ∧
      ((send_notification prefs o now n).fin.status = "sent" ∨
        (send_notification prefs o now n).fin.status = "failed")) := by
  constructor
  · intro i r hi hs
    have hrmem : r ∈ notifs := List.getElem?_mem hi
    have hnone : ((sweepSelect notifs batchSize).map
        (fun n => (send_notification prefs o now n).fin)).find? (fun f => f.id == r.id) = none := by
      rw [List.find?_eq_none]
      intro f hf hbeq
      rcases List.mem_map.mp hf with ⟨n, hn, rfl⟩
      rcases mem_sweepSelect n notifs batchSize hn with ⟨hnmem, hnp⟩
      have hid : n.id = r.id := by
        have := beq_iff_eq.mp hbeq
        rwa [send_notification_fin_id] at this
      have : n = r := List.inj_on_of_nodup_map hnd hnmem hrmem hid
      subst this
      rcases hs with hs | hs <;> rw [hnp] at hs <;> exact absurd hs (by decide)
    show (notifs.map (applyFinals ((sweepSelect notifs batchSize).map
      (fun n => (send_notification prefs o now n).fin))))[i]? = some r
    rw [List.getElem?_map, hi]
    simp [applyFinals, hnone]
  · intro n _
    refine ⟨?_, ?_⟩
    · unfold send_notification
      rcases h : (sendBranch prefs o { n with status := "processing", updated_at := now }).1
        with _ | b
      · simp [h]
      · cases b <;> simp [h]
    · unfold send_notification
      rcases h : (sendBranch prefs o { n with status := "processing", updated_at := now }).1
        with _ | b
      · simp [h]
      · cases b <;> simp [h]

/-- Witness for C2: a table holding one sent and one pending record; the sent
    record survives the iteration unchanged, and the pending record passes
    through processing to a terminal status. -/
theorem status_transitions_monotonic_witness :
    (sweepIteration [] (fun _ _ _ => Except.ok true) 9 10
      [{ id := 1, user_id := none, type := "t", channel := "database", subject := none,
         content := "c", status := "sent", error_message := none, data := none,
         created_at := 0, updated_at := 0, sent_at := some 0, read_at := none },
       { id := 2, user_id := none, type := "t", channel := "database", subject := none,
         content := "c", status := "pending", error_message := none, data := none,
         created_at := 1, updated_at := 1, sent_at := none, read_at := none }]).1[0]? =
      some { id := 1, user_id := none, type := "t", channel := "database", subject := none,
             content := "c", status := "sent", error_message := none, data := none,
             created_at := 0, updated_at := 0, sent_at := some 0, read_at := none } ∧
    (send_notification [] (fun _ _ _ => Except.ok true) 9
      { id := 2, user_id := none, type := "t", channel := "database", subject := none,
        content := "c", status := "pending", error_message := none, data := none,
        created_at := 1, updated_at := 1, sent_at := none, read_at := none }).mid.status =
      "processing" ∧
    ((send_notification [] (fun _ _ _ => Except.ok true) 9
      { id := 2, user_id := none, type := "t", channel := "database", subject := none,
        content := "c", status := "pending", error_message := none, data := none,
        created_at := 1, updated_at := 1, sent_at := none, read_at := none }).fin.status = "sent" ∨
      (send_notification [] (fun _ _ _ => Except.ok true) 9
      { id := 2, user_id := none, type := "t", channel := "database", subject := none,
        content := "c", status := "pending", error_message := none, data := none,
        created_at := 1, updated_at := 1, sent_at := none, read_at := none }).fin.status = "failed") := by
  have h := status_transitions_monotonic [] (fun _ _ _ => Except.ok true) 9 10
    [{ id := 1, user_id := none, type := "t", channel := "database", subject := none,
       content := "c", status := "sent", error_message := none, data := none,
       created_at := 0, updated_at := 0, sent_at := some 0, read_at := none },
     { id := 2, user_id := none, type := "t", channel := "database", subject := none,
       content := "c", status := "pending", error_message := none, data := none,
       created_at := 1, updated_at := 1, sent_at := none, read_at := none }] (by decide)
  refine ⟨h.1 0 _ rfl (Or.inl rfl), ?_, ?_⟩
  · exact (h.2 _ rfl).1
  · exact (h.2 _ rfl).2

/-- Sample pending record stored through the database channel, with a given id
    and creation time. -/
def pendingDbRecord (i t : Nat) : Notification :=
  { id := i, user_id := none, type := "low_stock", channel := "database", subject := none,
    content := "c", status := "pending", error_message := none, data := none,
    created_at := t, updated_at := t, sent_at := none, read_at := none }

/-- C6: the sweep selects at most batchSize pending records ordered by
    creation time ascending and processes them in that order: with pending
    records created at t1 less than t2 less than t3 and batchSize 2, the first
    iteration processes exactly the records created at t1 and t2, in that
    order, and leaves the record created at t3 pending and untouched. -/
theorem sweep_selects_batch_fifo (prefs : List NotificationPreference)
    (o : String → Option String → String → Except String Bool) (now : Nat) :
    (∀ (notifs : List Notification) (b : Nat),
      (sweepSelect notifs b).length ≤ b ∧
      (∀ n ∈ sweepSelect notifs b, n.status = "pending") ∧
      (sweepSelect notifs b).Pairwise (fun a c => a.created_at ≤ c.created_at)) ∧
    (∀ t1 t2 t3 : Nat, t1 < t2 → t2 < t3 →
      (sweepIteration prefs o now 2
        [pendingDbRecord 2 t2, pendingDbRecord 3 t3, pendingDbRecord 1 t1]).2.map
          (fun f => (f.id, f.created_at)) = [(1, t1), (2, t2)] ∧
      (sweepIteration prefs o now 2
        [pendingDbRecord 2 t2, pendingDbRecord 3 t3, pendingDbRecord 1 t1]).1[1]? =
        some (pendingDbRecord 3 t3)) := by
  constructor
  · intro notifs b
    refine ⟨?_, ?_, ?_⟩
    · exact List.length_take_le b _
    · intro n hn
      exact (mem_sweepSelect n notifs b hn).2
    · exact List.Pairwise.sublist (List.take_sublist b _) (pairwise_sortByCreated _)
  · intro t1 t2 t3 h12 h23
    have h31 : ¬ t3 ≤ t1 := by omega
    have h21 : ¬ t2 ≤ t1 := by omega
    have h23le : t2 ≤ t3 := by omega
    have hsel : sweepSelect [pendingDbRecord 2 t2, pendingDbRecord 3 t3, pendingDbRecord 1 t1] 2 =
        [pendingDbRecord 1 t1, pendingDbRecord 2 t2] := by
      simp [sweepSelect, sortByCreated, insertByCreated, pendingDbRecord, h31, h21, h23le]
    constructor
    · show ((sweepSelect [pendingDbRecord 2 t2, pendingDbRecord 3 t3, pendingDbRecord 1 t1] 2).map
        (fun n => (send_notification prefs o now n).fin)).map
          (fun f => (f.id, f.created_at)) = [(1, t1), (2, t2)]
      rw [hsel]
      simp [send_notification_fin_id, send_notification_fin_created_at, pendingDbRecord]
    · show ([pendingDbRecord 2 t2, pendingDbRecord 3 t3, pendingDbRecord 1 t1].map
        (applyFinals ((sweepSelect [pendingDbRecord 2 t2, pendingDbRecord 3 t3,
          pendingDbRecord 1 t1] 2).map
            (fun n => (send_notification prefs o now n).fin))))[1]? =
          some (pendingDbRecord 3 t3)
      rw [hsel, List.getElem?_map]
      simp [applyFinals, List.find?, send_notification_fin_id, pendingDbRecord]

/-- Witness for C6 at creation times 0, 1, 2. -/
theorem sweep_selects_batch_fifo_witness :
    (sweepIteration [] (fun _ _ _ => Except.ok true) 5 2
      [pendingDbRecord 2 1, pendingDbRecord 3 2, pendingDbRecord 1 0]).2.map
        (fun f => (f.id, f.created_at)) = [(1, 0), (2, 1)] ∧
    (sweepIteration [] (fun _ _ _ => Except.ok true) 5 2
      [pendingDbRecord 2 1, pendingDbRecord 3 2, pendingDbRecord 1 0]).1[1]? =
      some (pendingDbRecord 3 2) :=
  (sweep_selects_batch_fifo [] (fun _ _ _ => Except.ok true) 5).2 0 1 2 (by decide) (by decide)

/-- Observable events of the sweep loop in process_pending_notifications. -/
inductive SweepEvent where
  | processed (count : Nat) : SweepEvent
  | errorCaught (msg : String) : SweepEvent
  | slept : SweepEvent
  | stopped : SweepEvent
deriving DecidableEq

/-- Recogniser for the sleep event. -/
def isSlept : SweepEvent → Bool
  | .slept => true
  | _ => false

/-- Fuel-bounded trace of the while-running sweep loop: each round checks the
    flag; if running, one batch attempt runs, whose outcome — or exception,
    caught and logged — comes from the iter oracle, and then the loop always
    sleeps processingInterval; a false flag ends the loop. Fuel only bounds
    how far the trace is observed. -/
def process_pending_notifications (running : Nat → Bool) (iter : Nat → Except String Nat) :
    Nat → Nat → List SweepEvent
  | 0, _ => []
  | fuel + 1, k =>
    if running k then
      (match iter k with
        | .ok c => SweepEvent.processed c
        | .error e => SweepEvent.errorCaught e) :: SweepEvent.slept ::
        process_pending_notifications running iter fuel (k + 1)
    else [SweepEvent.stopped]

/-- C8: the sweep loop never terminates because of a batch failure. The loop
    only stops when the running flag is observed false; with the flag always
    true the trace never stops and sleeps exactly once per round whatever the
    batch outcomes; and whenever the flag is true a round is one batch event
    (a success or a caught error — never a propagated exception) always
    followed by a sleep. -/
theorem sweep_loop_survives_errors (running : Nat → Bool) (iter : Nat → Except String Nat) :
    (∀ fuel k, SweepEvent.stopped ∈ process_pending_notifications running iter fuel k →
      ∃ j, running j = false) ∧
    ((∀ j, running j = true) → ∀ fuel k,
      SweepEvent.stopped ∉ process_pending_notifications running iter fuel k ∧
      (process_pending_notifications running iter fuel k).countP isSlept = fuel) ∧
    (∀ fuel k, running k = true →
      process_pending_notifications running iter (fuel + 1) k =
        (match iter k with
          | .ok c => SweepEvent.processed c
          | .error e => SweepEvent.errorCaught e) :: SweepEvent.slept ::
          process_pending_notifications running iter fuel (k + 1)) := by
  refine ⟨?_, ?_, ?_⟩
  · intro fuel
    induction fuel with
    | zero =>
      intro k h
      simp [process_pending_notifications] at h
    | succ m ih =>
      intro k h
      unfold process_pending_notifications at h
      by_cases hr : running k = true
      · rw [if_pos hr] at h
        rcases List.mem_cons.mp h with h | h
        · rcases hi : iter k with e | c <;> rw [hi] at h <;> simp at h
        · rcases List.mem_cons.mp h with h | h
          · simp at h
          · exact ih (k + 1) h
      · refine ⟨k, ?_⟩
        revert hr
        cases running k <;> simp
  · intro hall fuel
    induction fuel with
    | zero =>
      intro k
      simp [process_pending_notifications]
    | succ m ih =>
      intro k
      unfold process_pending_notifications
      rw [if_pos (hall k)]
      rcases ih (k + 1) with ⟨ihn, ihc⟩
      constructor
      · intro hmem
        rcases List.mem_cons.mp hmem with h | h
        · rcases hi : iter k with e | c <;> rw [hi] at h <;> simp at h
        · rcases List.mem_cons.mp h with h | h
          · simp at h
          · exact ihn h
      · rcases hi : iter k with e | c <;> simp [List.countP_cons, isSlept, ihc]
  · intro fuel k hr
    conv_lhs => rw [process_pending_notifications]
    rw [if_pos hr]

/-- Witness for C8: a loop whose first batch raises still reaches the stop
    only through the flag; an always-true flag yields no stop and one sleep
    per round; a running round is one caught event plus a sleep. -/
theorem sweep_loop_survives_errors_witness :
    (∃ j, (fun j => decide (j < 2)) j = false) ∧
    (SweepEvent.stopped ∉ process_pending_notifications (fun _ => true)
        (fun k => if k = 0 then Except.error "boom" else Except.ok 0) 3 0 ∧
      (process_pending_notifications (fun _ => true)
        (fun k => if k = 0 then Except.error "boom" else Except.ok 0) 3 0).countP isSlept = 3) ∧
    process_pending_notifications (fun j => decide (j < 2))
        (fun k => if k = 0 then Except.error "boom" else Except.ok 0) 1 0 =
      (match (if (0 : Nat) = 0 then Except.error "boom" else Except.ok 0) with
        | .ok c => SweepEvent.processed c
        | .error e => SweepEvent.errorCaught e) :: SweepEvent.slept ::
        process_pending_notifications (fun j => decide (j < 2))
          (fun k => if k = 0 then Except.error "boom" else Except.ok 0) 0 1 := by
  refine ⟨?_, ?_, ?_⟩
  · exact (sweep_loop_survives_errors (fun j => decide (j < 2))
      (fun k => if k = 0 then Except.error "boom" else Except.ok 0)).1 5 0 (by decide)
  · exact (sweep_loop_survives_errors (fun _ => true)
      (fun k => if k = 0 then Except.error "boom" else Except.ok 0)).2.1 (fun _ => rfl) 3 0
  · exact (sweep_loop_survives_errors (fun j => decide (j < 2))
      (fun k => if k = 0 then Except.error "boom" else Except.ok 0)).2.2 0 0 (by decide)

/-- HTML body of the low stock admin email, interpolated as in the f-string. -/
def lowStockHtml (product_id product_name current_quantity threshold : Json) : String :=
  "\n            <h2>Low Stock Alert</h2>\n            <p>Product <strong>" ++
    product_name.pyStr ++
    "</strong> is running low on stock.</p>\n            <ul>\n                <li><strong>Product ID:</strong> " ++
    product_id.pyStr ++
    "</li>\n                <li><strong>Current Quantity:</strong> " ++
    current_quantity.pyStr ++
    "</li>\n                <li><strong>Threshold:</strong> " ++
    threshold.pyStr ++
    "</li>\n            </ul>\n            <p>Please replenish the inventory as soon as possible.</p>\n            "

/-- NotificationProcessor.handle_low_stock_notification: validates the payload
    fields; on success persists one system notification with channel database
    and status pending echoing the payload, then, if an admin address is
    configured, calls send_email once with it, bypassing any preference
    lookup. Returns the store after the call and the send_email invocations
    made. The new row takes id nid and the clock reads now. -/
def handle_low_stock_notification (s : Settings) (db : Db) (data : List (String × Json))
    (now nid : Nat) : Db × List EmailAttempt :=
  let product_id := pyGet data "product_id"
  let product_name := pyGetD data "product_name" product_id
  let current_quantity := pyGet data "current_quantity"
  let threshold := pyGet data "threshold"
  if ¬ product_id.truthy ∨ current_quantity = Json.null ∨ threshold = Json.null then (db, [])
  else
    let record : Notification :=
      { id := nid, user_id := none, type := "low_stock", channel := "database",
        subject := some ("Low Stock Alert: " ++ product_name.pyStr),
        content := "Product \x27" ++ product_name.pyStr ++
          "\x27 is running low on stock. Current quantity: " ++ current_quantity.pyStr ++
          ", Threshold: " ++ threshold.pyStr,
        status := "pending", error_message := none, data := some data,
        created_at := now, updated_at := now, sent_at := none, read_at := none }
    let db2 : Db := { db with notifications := db.notifications ++ [record] }
    let attempts : List EmailAttempt :=
      if truthyOptStr s.ADMIN_EMAIL then
        [⟨s.ADMIN_EMAIL.getD "", some ("Low Stock Alert: " ++ product_name.pyStr),
          lowStockHtml product_id product_name current_quantity threshold⟩]
      else []
    (db2, attempts)

/-- The low stock event payload of the testable property. -/
def lowStockEvent : List (String × Json) :=
  [("type", Json.str "low_stock"), ("product_id", Json.str "P1"),
   ("product_name", Json.str "Widget"), ("current_quantity", Json.num 2),
   ("threshold", Json.num 5)]

/-- The record that handling the concrete low stock event persists, given the
    clock value and the assigned row id. -/
def lowStockRecord (now nid : Nat) : Notification :=
  { id := nid, user_id := none, type := "low_stock", channel := "database",
    subject := some "Low Stock Alert: Widget",
    content := "Product \x27Widget\x27 is running low on stock. Current quantity: 2, Threshold: 5",
    status := "pending", error_message := none, data := some lowStockEvent,
    created_at := now, updated_at := now, sent_at := none, read_at := none }

/-- C3: handling the concrete low stock event appends exactly one notification
    record — channel database, status pending, subject containing Widget, data
    equal to the original payload — to the store, whatever its prior contents
    including any stored preference rows, and makes exactly one email-send
    attempt, addressed to the configured admin address. -/
theorem low_stock_event_creates_record_and_admin_email (s : Settings) (db : Db)
    (now nid : Nat) (a : String) (ha : s.ADMIN_EMAIL = some a) (ha2 : a ≠ "") :
    ∃ rec : Notification,
      (handle_low_stock_notification s db lowStockEvent now nid).1.notifications =
        db.notifications ++ [rec] ∧
      (handle_low_stock_notification s db lowStockEvent now nid).1.preferences =
        db.preferences ∧
      rec.channel = "database" ∧ rec.status = "pending" ∧
      (∃ pre post : String, rec.subject = some (pre ++ "Widget" ++ post)) ∧
      rec.data = some lowStockEvent ∧
      ∃ att : EmailAttempt,
        (handle_low_stock_notification s db lowStockEvent now nid).2 = [att] ∧
        att.to_email = a := by
  have hguard : (handle_low_stock_notification s db lowStockEvent now nid) =
      ({ db with notifications := db.notifications ++ [lowStockRecord now nid] },
        [⟨a, some "Low Stock Alert: Widget",
          lowStockHtml (Json.str "P1") (Json.str "Widget") (Json.num 2) (Json.num 5)⟩]) := by
    unfold handle_low_stock_notification lowStockRecord
    rw [if_neg (by decide)]
    simp only [lowStockEvent, pyGet, pyGetD, List.find?, truthyOptStr, ha, Json.pyStr]
    rw [if_pos (by simpa using ha2)]
    rfl
  refine ⟨lowStockRecord now nid, ?_, ?_, rfl, rfl,
    ⟨"Low Stock Alert: ", "", rfl⟩, rfl, ?_⟩
  · rw [hguard]
  · rw [hguard]
  · exact ⟨_, by rw [hguard], rfl⟩

/-- Witness for C3 at a concrete configuration and an empty store. -/
theorem low_stock_event_creates_record_and_admin_email_witness :
    ∃ rec : Notification,
      (handle_low_stock_notification
        { ADMIN_EMAIL := some "admin@example.com", SMTP_HOST := "h", SMTP_PORT := 587,
          SMTP_USER := none, SMTP_PASSWORD := none, EMAIL_FROM := none,
          EMAIL_FROM_NAME := "N", NOTIFICATION_BATCH_SIZE := 10,
          NOTIFICATION_PROCESSING_INTERVAL := 30 }
        ⟨[], []⟩ lowStockEvent 4 7).1.notifications = [] ++ [rec] ∧
      (handle_low_stock_notification
        { ADMIN_EMAIL := some "admin@example.com", SMTP_HOST := "h", SMTP_PORT := 587,
          SMTP_USER := none, SMTP_PASSWORD := none, EMAIL_FROM := none,
          EMAIL_FROM_NAME := "N", NOTIFICATION_BATCH_SIZE := 10,
          NOTIFICATION_PROCESSING_INTERVAL := 30 }
        ⟨[], []⟩ lowStockEvent 4 7).1.preferences = [] ∧
      rec.channel = "database" ∧ rec.status = "pending" ∧
      (∃ pre post : String, rec.subject = some (pre ++ "Widget" ++ post)) ∧
      rec.data = some lowStockEvent ∧
      ∃ att : EmailAttempt,
        (handle_low_stock_notification
          { ADMIN_EMAIL := some "admin@example.com", SMTP_HOST := "h", SMTP_PORT := 587,
            SMTP_USER := none, SMTP_PASSWORD := none, EMAIL_FROM := none,
            EMAIL_FROM_NAME := "N", NOTIFICATION_BATCH_SIZE := 10,
            NOTIFICATION_PROCESSING_INTERVAL := 30 }
          ⟨[], []⟩ lowStockEvent 4 7).2 = [att] ∧
        att.to_email = "admin@example.com" :=
  low_stock_event_creates_record_and_admin_email _ ⟨[], []⟩ 4 7 "admin@example.com" rfl
    (by decide)

/-- C7: a low stock event missing the current_quantity key — and likewise one
    missing product_id or threshold — creates no record and makes no email
    attempt: the store is returned unchanged with an empty attempt list. -/
theorem low_stock_missing_field_drops (s : Settings) (db : Db)
    (data : List (String × Json)) (now nid : Nat)
    (h : hasKey data "current_quantity" = false ∨ hasKey data "product_id" = false ∨
      hasKey data "threshold" = false) :
    handle_low_stock_notification s db data now nid = (db, []) := by
  unfold handle_low_stock_notification
  rw [if_pos]
  rcases h with h | h | h
  · refine Or.inr (Or.inl ?_)
    unfold pyGet
    unfold hasKey at h
    rcases hf : data.find? (fun kv => kv.1 == "current_quantity") with _ | kv
    · rw [hf]
    · rw [hf] at h
      simp at h
  · refine Or.inl ?_
    unfold Json.truthy pyGet
    unfold hasKey at h
    rcases hf : data.find? (fun kv => kv.1 == "product_id") with _ | kv
    · rw [hf]
      simp
    · rw [hf] at h
      simp at h
  · refine Or.inr (Or.inr ?_)
    unfold pyGet
    unfold hasKey at h
    rcases hf : data.find? (fun kv => kv.1 == "threshold") with _ | kv
    · rw [hf]
    · rw [hf] at h
      simp at h

/-- Witness for C7 at the low stock payload with current_quantity removed. -/
theorem low_stock_missing_field_drops_witness :
    handle_low_stock_notification
      { ADMIN_EMAIL := some "admin@example.com", SMTP_HOST := "h", SMTP_PORT := 587,
        SMTP_USER := none, SMTP_PASSWORD := none, EMAIL_FROM := none,
        EMAIL_FROM_NAME := "N", NOTIFICATION_BATCH_SIZE := 10,
        NOTIFICATION_PROCESSING_INTERVAL := 30 }
      ⟨[], []⟩
      [("type", Json.str "low_stock"), ("product_id", Json.str "P1"),
       ("product_name", Json.str "Widget"), ("threshold", Json.num 5)] 4 7 =
      (⟨[], []⟩, []) :=
  low_stock_missing_field_drops _ _ _ 4 7 (Or.inl (by decide))

/-- The read-marker stamp the route applies: read_at and updated_at are set to
    the current time. -/
def setRead (now : Nat) (n : Notification) : Notification :=
  { n with read_at := some now, updated_at := now }

/-- Commit of the mutated row: the first record with the given id is replaced. -/
def replaceById (nid : Nat) (n' : Notification) : List Notification → List Notification
  | [] => []
  | r :: rs => if r.id = nid then n' :: rs else r :: replaceById nid n' rs

/-- Unfolding equation of replaceById on a cons cell. -/
theorem replaceById_cons (nid : Nat) (n' r : Notification) (rs : List Notification) :
    replaceById nid n' (r :: rs) =
      if r.id = nid then n' :: rs else r :: replaceById nid n' rs := rfl

/-- Route mark_notification_read: looks the record up by id (404 when absent),
    unconditionally stamps read_at and updated_at with the current time,
    commits and returns the refreshed record. -/
def mark_notification_read (db : List Notification) (nid now : Nat) :
    Except String (List Notification × Notification) :=
  match db.find? (fun r => r.id == nid) with
  | none => Except.error "404"
  | some n => Except.ok (replaceById nid (setRead now n) db, setRead now n)

/-- Replacing twice by the same row is the same as replacing once. -/
theorem replaceById_idem (nid : Nat) (n' : Notification) (hn : n'.id = nid)
    (db : List Notification) :
    replaceById nid n' (replaceById nid n' db) = replaceById nid n' db := by
  induction db with
  | nil => rfl
  | cons r rs ih =>
    by_cases hr : r.id = nid
    · simp [replaceById_cons, hr, hn]
    · simp [replaceById_cons, hr, ih]

/-- After replacing the found row, lookup by the same id finds the new row. -/
theorem find_replaceById (nid : Nat) (n' : Notification) (hn : n'.id = nid) :
    ∀ (db : List Notification) (n0 : Notification),
      db.find? (fun r => r.id == nid) = some n0 →
      (replaceById nid n' db).find? (fun r => r.id == nid) = some n' := by
  intro db
  induction db with
  | nil =>
    intro n0 h
    simp at h
  | cons r rs ih =>
    intro n0 h
    by_cases hr : r.id = nid
    · rw [replaceById_cons, if_pos hr]
      exact List.find?_cons_of_pos rs (by simpa using hn)
    · rw [replaceById_cons, if_neg hr]
      rw [List.find?_cons_of_neg rs (by simpa using hr)] at h
      rw [List.find?_cons_of_neg _ (by simpa using hr)]
      exact ih n0 h

/-- Sample stored record used to exhibit the behaviour of the read marker. -/
def markReadSample : Notification :=
  { id := 1, user_id := some "u", type := "t", channel := "database", subject := none,
    content := "c", status := "sent", error_message := none, data := none,
    created_at := 0, updated_at := 0, sent_at := some 0, read_at := none }

/-- C4 counterexample: marking the same record read at time 1 and then again
    at time 2 yields a different observable record state after the second call
    (read_at and updated_at are restamped), so the second call is not a no-op. -/
theorem mark_read_not_idempotent_counterexample :
    mark_notification_read [markReadSample] 1 1 =
      Except.ok ([setRead 1 markReadSample], setRead 1 markReadSample) ∧
    mark_notification_read [setRead 1 markReadSample] 1 2 =
      Except.ok ([setRead 2 markReadSample], setRead 2 markReadSample) ∧
    setRead 2 markReadSample ≠ setRead 1 markReadSample ∧
    (setRead 2 markReadSample).read_at ≠ (setRead 1 markReadSample).read_at := by
  refine ⟨rfl, rfl, by decide, by decide⟩

/-- C4 amended: a second mark-read call on an existing record always succeeds
    and changes nothing except read_at and updated_at, which it overwrites
    with the second call clock; the state after the second call equals the
    state after the first exactly when the two calls carry the same clock. -/
theorem mark_read_second_call_restamps (db db1 : List Notification) (nid t1 t2 : Nat)
    (n1 : Notification)
    (h : mark_notification_read db nid t1 = Except.ok (db1, n1)) :
    mark_notification_read db1 nid t2 =
      Except.ok (replaceById nid (setRead t2 n1) db1, setRead t2 n1) ∧
    (t2 = t1 → mark_notification_read db1 nid t2 = Except.ok (db1, n1)) := by
  unfold mark_notification_read at h
  rcases hf : db.find? (fun r => r.id == nid) with _ | n0
  · rw [hf] at h
    simp at h
  · rw [hf] at h
    simp only [Except.ok.injEq, Prod.mk.injEq] at h
    rcases h with ⟨hdb1, hn1⟩
    subst hdb1
    subst hn1
    have hp := List.find?_some hf
    have hn0id : n0.id = nid := by simpa using hp
    have hfind1 : (replaceById nid (setRead t1 n0) db).find? (fun r => r.id == nid) =
        some (setRead t1 n0) := find_replaceById nid (setRead t1 n0) hn0id db n0 hf
    constructor
    · unfold mark_notification_read
      rw [hfind1]
    · intro ht
      subst ht
      unfold mark_notification_read
      rw [hfind1]
      have hidem := replaceById_idem nid (setRead t2 n0) hn0id db
      exact congrArg Except.ok (congrArg (fun l => (l, setRead t2 n0)) hidem)

/-- Witness for the amended C4 at the sample record, first call clock 1 and
    second call clock 2. -/
theorem mark_read_second_call_restamps_witness :
    mark_notification_read [setRead 1 markReadSample] 1 2 =
      Except.ok (replaceById 1 (setRead 2 (setRead 1 markReadSample))
        [setRead 1 markReadSample], setRead 2 (setRead 1 markReadSample)) ∧
    (2 = 1 → mark_notification_read [setRead 1 markReadSample] 1 2 =
      Except.ok ([setRead 1 markReadSample], setRead 1 markReadSample)) :=
  mark_read_second_call_restamps [markReadSample] [setRead 1 markReadSample] 1 1 2
    (setRead 1 markReadSample) rfl
